import Mathlib

/-!
Verification of the chunked video uploader (`src/abstract-uploader.ts`,
`src/video-uploader.ts`) against its natural-language specification.

The TypeScript source is shallowly embedded: pure computations become Lean
functions on `Nat` / `Int` / `String`, JavaScript truthiness is made explicit
through small helper functions, fallible constructors return `Except`, and the
asynchronous retry / refresh loops become structural recursions over explicit
scripts of transport outcomes.
-/

namespace Uploader

/-! ## Constants (abstract-uploader.ts, lines 1-5) -/

/-- `export const MIN_CHUNK_SIZE = 1024 * 1024 * 5; // 5mb` -/
def MIN_CHUNK_SIZE : Nat := 1024 * 1024 * 5

/-- `export const DEFAULT_CHUNK_SIZE = 1024 * 1024 * 50; // 50mb` -/
def DEFAULT_CHUNK_SIZE : Nat := 1024 * 1024 * 50

/-- `export const MAX_CHUNK_SIZE = 1024 * 1024 * 128; // 128mb` -/
def MAX_CHUNK_SIZE : Nat := 1024 * 1024 * 128

/-- `export const DEFAULT_RETRIES = 6;` -/
def DEFAULT_RETRIES : Nat := 6

/-- `export const DEFAULT_API_HOST = "ws.api.video";` -/
def DEFAULT_API_HOST : String := "ws.api.video"

/-! ## JavaScript truthiness helpers

An optional JavaScript string / number is modelled as `Option String` /
`Option Int` (`none` = property absent or `undefined`).  A string is truthy
iff it is present and nonempty; a number is truthy iff present and nonzero. -/

/-- Truthiness of an optional JS string: `undefined` and `""` are falsy. -/
def truthyStr : Option String → Bool
  | none => false
  | some s => s != ""

/-- Truthiness of an optional JS number: `undefined` and `0` are falsy
(`NaN` is not representable for the integer-valued options modelled here). -/
def truthyInt : Option Int → Bool
  | none => false
  | some n => n != 0

/-! ## Chunk planner (video-uploader.ts, lines 44 and 57-61) -/

/-- `this.chunksCount = Math.ceil(this.fileSize / this.chunkSize);`
(video-uploader.ts line 44).  `Math.ceil` of the exact quotient, embedded as
the rational ceiling. -/
def chunksCount (fileSize chunkSize : Nat) : Nat :=
  ⌈(fileSize : ℚ) / (chunkSize : ℚ)⌉₊

/-- `const firstByte = chunkNumber * this.chunkSize;` (video-uploader.ts
line 58). -/
def firstByte (chunkSize chunkNumber : Nat) : Nat := chunkNumber * chunkSize

/-- `const computedLastByte = (chunkNumber + 1) * this.chunkSize;`
`const lastByte = (computedLastByte > this.fileSize ? this.fileSize :
computedLastByte);` (video-uploader.ts lines 59-60). -/
def lastByte (fileSize chunkSize chunkNumber : Nat) : Nat :=
  if (chunkNumber + 1) * chunkSize > fileSize then fileSize
  else (chunkNumber + 1) * chunkSize

/-- For a positive chunk size, `Math.ceil(fileSize / chunkSize)` agrees with
the usual natural-number ceiling division `(fileSize + chunkSize - 1) / chunkSize`. -/
theorem chunksCount_eq_div (fs cs : Nat) (hcs : 0 < cs) :
    chunksCount fs cs = (fs + cs - 1) / cs := by
  have hcsQ : (0 : ℚ) < (cs : ℚ) := by exact_mod_cast hcs
  apply le_antisymm
  · -- `⌈fs / cs⌉₊ ≤ (fs + cs - 1) / cs` because `fs ≤ ((fs + cs - 1) / cs) * cs`
    rw [chunksCount, Nat.ceil_le]
    rw [div_le_iff₀ hcsQ]
    have hdm := Nat.div_add_mod (fs + cs - 1) cs
    have hm : (fs + cs - 1) % cs < cs := Nat.mod_lt _ hcs
    have : fs ≤ (fs + cs - 1) / cs * cs := by
      have h1 : cs * ((fs + cs - 1) / cs) + (fs + cs - 1) % cs = fs + cs - 1 := hdm
      have h2 : cs * ((fs + cs - 1) / cs) = (fs + cs - 1) / cs * cs := Nat.mul_comm _ _
      omega
    exact_mod_cast this
  · -- `(fs + cs - 1) / cs ≤ ⌈fs / cs⌉₊` because `fs ≤ ⌈fs / cs⌉₊ * cs`
    have hle : (fs : ℚ) ≤ (chunksCount fs cs : ℚ) * (cs : ℚ) := by
      rw [← div_le_iff₀ hcsQ]
      exact Nat.le_ceil _
    have hfs : fs ≤ chunksCount fs cs * cs := by exact_mod_cast hle
    have : (fs + cs - 1) / cs < chunksCount fs cs + 1 := by
      rw [Nat.div_lt_iff_lt_mul hcs]
      have : (chunksCount fs cs + 1) * cs = chunksCount fs cs * cs + cs := by ring
      omega
    omega

/-- Helper: every chunk ordinal below the count starts strictly inside the file. -/
theorem firstByte_lt_of_lt_count (fs cs i : Nat) (hcs : 0 < cs)
    (hi : i < chunksCount fs cs) : i * cs < fs := by
  rw [chunksCount_eq_div fs cs hcs] at hi
  have h1 : i + 1 ≤ (fs + cs - 1) / cs := hi
  rw [Nat.le_div_iff_mul_le hcs] at h1
  have h2 : (i + 1) * cs = i * cs + cs := by ring
  omega

/-- Helper: every byte of the file lies in the chunk numbered by its quotient. -/
theorem div_lt_count_of_lt (fs cs b : Nat) (hcs : 0 < cs) (hb : b < fs) :
    b / cs < chunksCount fs cs := by
  rw [chunksCount_eq_div fs cs hcs]
  have h1 : b / cs * cs ≤ b := Nat.div_mul_le_self b cs
  have : b / cs + 1 ≤ (fs + cs - 1) / cs := by
    rw [Nat.le_div_iff_mul_le hcs]
    have h2 : (b / cs + 1) * cs = b / cs * cs + cs := by ring
    omega
  omega

/-- C1.  For every `fileSize ≥ 0` and every `chunkSize` within the allowed
bounds, the chunk count is the exact ceiling `⌈fileSize / chunkSize⌉` (stated
for `fileSize > 0`, and in fact unconditionally), every chunk range
`[firstByte, lastByte)` is nonempty and contained in `[0, fileSize)`, and the
ranges partition `[0, fileSize)` exactly: each byte of the file lies in
exactly one chunk — no gap, no overlap. -/
theorem chunks_partition_file (fs cs : Nat)
    (hmin : MIN_CHUNK_SIZE ≤ cs) (_hmax : cs ≤ MAX_CHUNK_SIZE) :
    (0 < fs → (chunksCount fs cs : ℤ) = ⌈(fs : ℚ) / (cs : ℚ)⌉) ∧
    (∀ i, i < chunksCount fs cs →
      firstByte cs i < lastByte fs cs i ∧ lastByte fs cs i ≤ fs) ∧
    (∀ b, b < fs → ∃! i, i < chunksCount fs cs ∧
      firstByte cs i ≤ b ∧ b < lastByte fs cs i) := by
  have hcs : 0 < cs := lt_of_lt_of_le (by norm_num [MIN_CHUNK_SIZE]) hmin
  have hcsQ : (0 : ℚ) < (cs : ℚ) := by exact_mod_cast hcs
  refine ⟨?_, ?_, ?_⟩
  · intro _
    exact Int.natCast_ceil_eq_ceil (div_nonneg (Nat.cast_nonneg _) (le_of_lt hcsQ))
  · intro i hi
    have hlt : i * cs < fs := firstByte_lt_of_lt_count fs cs i hcs hi
    have hmono : i * cs < (i + 1) * cs := by
      have : (i + 1) * cs = i * cs + cs := by ring
      omega
    unfold firstByte lastByte
    split <;> omega
  · intro b hb
    refine ⟨b / cs, ⟨div_lt_count_of_lt fs cs b hcs hb, ?_, ?_⟩, ?_⟩
    · exact Nat.div_mul_le_self b cs
    · -- `b < lastByte`: `b < fs` and `b < (b / cs + 1) * cs`
      have hdm := Nat.div_add_mod b cs
      have hm : b % cs < cs := Nat.mod_lt _ hcs
      have h2 : (b / cs + 1) * cs = b / cs * cs + cs := by ring
      have h3 : cs * (b / cs) = b / cs * cs := Nat.mul_comm _ _
      unfold lastByte
      split <;> omega
    · rintro j ⟨_, hlo, hhi⟩
      have hhi2 : b < (j + 1) * cs := by
        unfold lastByte at hhi
        split at hhi <;> omega
      exact (Nat.div_eq_of_lt_le hlo hhi2).symm

/-- Witness for `chunks_partition_file` at a concrete input
(`fileSize` = 12 MiB, `chunkSize` = 5 MiB). -/
theorem chunks_partition_file_witness :
    (MIN_CHUNK_SIZE ≤ MIN_CHUNK_SIZE ∧ MIN_CHUNK_SIZE ≤ MAX_CHUNK_SIZE) ∧
    ((0 < 12582912 → (chunksCount 12582912 MIN_CHUNK_SIZE : ℤ) =
        ⌈(12582912 : ℚ) / (MIN_CHUNK_SIZE : ℚ)⌉) ∧
     (∀ i, i < chunksCount 12582912 MIN_CHUNK_SIZE →
       firstByte MIN_CHUNK_SIZE i < lastByte 12582912 MIN_CHUNK_SIZE i ∧
       lastByte 12582912 MIN_CHUNK_SIZE i ≤ 12582912) ∧
     (∀ b, b < 12582912 → ∃! i, i < chunksCount 12582912 MIN_CHUNK_SIZE ∧
       firstByte MIN_CHUNK_SIZE i ≤ b ∧ b < lastByte 12582912 MIN_CHUNK_SIZE i)) :=
  ⟨⟨le_refl _, by norm_num [MIN_CHUNK_SIZE, MAX_CHUNK_SIZE]⟩,
   chunks_partition_file 12582912 MIN_CHUNK_SIZE (le_refl _)
     (by norm_num [MIN_CHUNK_SIZE, MAX_CHUNK_SIZE])⟩

/-! ## Upload loop (video-uploader.ts, lines 48-82, with
`createFormData` from abstract-uploader.ts, lines 272-285)

`upload()` runs `for (i = 0; i < this.chunksCount; i++) { res = await
this.uploadCurrentChunk(i); this.videoId = res.videoId; }` and returns `res!`.
Each chunk request is built from the *current* `this.videoId` (via
`createFormData`) when `uploadCurrentChunk(i)` starts.

`uploadCurrentChunk` is declared `Promise<VideoUploadResponse>` but actually
returns the `CancelableOperation` record produced by `xhrWithRetrier`
(abstract-uploader.ts lines 264-270, 422-428) — a plain `{cancel, result}`
object with no `then` member.  `await` of a non-thenable yields the operand
itself, so at runtime `res` is that record, `res.videoId` is `undefined`, and
`this.videoId = res.videoId` stores `undefined` after every iteration; the
`result` promise is never awaited, so no response content ever flows back
into the loop.  The transport script `resp : Nat → String` (the `videoId`
each chunk's response would carry) is therefore *never consulted* by the
loop — that is the faithful semantics, not an abstraction.

The loop state is the stored `this.videoId : Option String` and the final
`res`, modelled as `Option Nat`: `none` = `undefined` (loop body never ran),
`some i` = the `CancelableOperation` record of chunk `i`, which is what
`res!` — declared a `VideoUploadResponse` — actually holds. -/

/-- A chunk request as the orchestrator builds it: the optional `videoId`
form field (`createFormData`, abstract-uploader.ts lines 280-282: appended
only when `this.videoId` is truthy), the byte range sliced from the file, and
the `Content-Range` part numbers (video-uploader.ts lines 77-80). -/
structure ChunkRequest where
  videoIdField : Option String
  firstByte : Nat
  lastByte : Nat
  currentPart : Nat
  totalParts : Nat
deriving DecidableEq, Repr

/-- `if (this.videoId) { chunkForm.append("videoId", this.videoId); }`
(abstract-uploader.ts lines 280-282): the field is present iff the stored id
is truthy. -/
def formVideoId (vid : Option String) : Option String :=
  if truthyStr vid then vid else none

/-- The request built for chunk `i` when the stored video id is `vid`
(video-uploader.ts lines 57-81). -/
def mkChunkRequest (fs cs : Nat) (vid : Option String) (i : Nat) : ChunkRequest :=
  { videoIdField := formVideoId vid
    firstByte := firstByte cs i
    lastByte := lastByte fs cs i
    currentPart := i + 1
    totalParts := chunksCount fs cs }

/-- The chunk loop of `upload()` starting at chunk `i` with `n` chunks left
and stored video id `vid`.  Returns the list of chunk requests issued, the
stored video id after the loop, and the final `res` (`none` = `undefined`,
i.e. the loop body never ran; `some i` = the `CancelableOperation` record of
chunk `i`).  Each iteration awaits the non-thenable record, so
`this.videoId` becomes `res.videoId = undefined` (`none`) for the next
iteration, whatever `resp` says the chunk's response carries. -/
def uploadSteps (fs cs : Nat) (resp : Nat → String) (vid : Option String)
    (i : Nat) : Nat → List ChunkRequest × Option String × Option Nat
  | 0 => ([], vid, none)
  | n + 1 =>
    let req := mkChunkRequest fs cs vid i
    let rest := uploadSteps fs cs resp none (i + 1) n
    (req :: rest.1, rest.2.1, some (rest.2.2.getD i))

/-- `VideoUploader.upload()` (video-uploader.ts lines 48-55): run the chunk
loop over all `chunksCount` chunks, starting from the video id stored at
construction time. -/
def upload (fs cs : Nat) (resp : Nat → String) (vid0 : Option String) :
    List ChunkRequest × Option String × Option Nat :=
  uploadSteps fs cs resp vid0 0 (chunksCount fs cs)

/-- C2.  A zero-byte file does *not* yield one chunk: `Math.ceil(0 / cs) = 0`,
so the chunk loop runs zero times, issues zero transport requests, and
`upload()` resolves to `undefined` (the `res!` non-null assertion is violated)
instead of the response of a single zero-length request. -/
theorem upload_zero_byte_file_makes_no_request :
    chunksCount 0 DEFAULT_CHUNK_SIZE = 0 ∧
    upload 0 DEFAULT_CHUNK_SIZE (fun _ => "vi1") none = ([], none, none) := by
  constructor
  · show ⌈(0 : ℚ) / (DEFAULT_CHUNK_SIZE : ℚ)⌉₊ = 0
    norm_num
  · show uploadSteps 0 DEFAULT_CHUNK_SIZE _ none 0 (chunksCount 0 DEFAULT_CHUNK_SIZE)
        = ([], none, none)
    have h : chunksCount 0 DEFAULT_CHUNK_SIZE = 0 := by
      show ⌈(0 : ℚ) / (DEFAULT_CHUNK_SIZE : ℚ)⌉₊ = 0
      norm_num
    rw [h]
    rfl

/-! ## Default retry strategy (abstract-uploader.ts, lines 104-114) -/

/-- The structured error consumed by the retry strategy
(`VideoUploadError`, abstract-uploader.ts lines 74-80; only the fields the
retry and cancellation logic inspects are modelled). -/
structure VideoUploadError where
  status : Option Nat
  reason : Option String
deriving DecidableEq, Repr

/-- The JS test `error.status && error.status >= 400 && error.status < 500`:
truthiness of the optional status, then the two range checks. -/
def status4xx (st : Option Nat) : Bool :=
  match st with
  | none => false
  | some s => s != 0 && decide (400 ≤ s) && decide (s < 500)

/-- `DEFAULT_RETRY_STRATEGY` (abstract-uploader.ts lines 104-114): `null`
when the status is a 4xx or the attempt index has reached `maxRetries`,
otherwise the delay `Math.floor(200 + 2000 * retryCount * (retryCount + 1))`
(the argument is an integer, so `Math.floor` is the identity). -/
def DEFAULT_RETRY_STRATEGY (maxRetries retryCount : Nat)
    (error : VideoUploadError) : Option Nat :=
  if status4xx error.status || decide (maxRetries ≤ retryCount) then none
  else some (200 + 2000 * retryCount * (retryCount + 1))

/-- C3.  The default strategy returns `null` for every HTTP status in
`[400, 500)` regardless of the attempt index and of the configured maximum;
for any other error it returns the delay `200 + 2000·n·(n+1)` ms while the
attempt index `n` is below the maximum, and `null` once `n` reaches it. -/
theorem default_retry_strategy_spec (maxRetries n : Nat) (e : VideoUploadError) :
    ((∃ s, e.status = some s ∧ 400 ≤ s ∧ s < 500) →
      DEFAULT_RETRY_STRATEGY maxRetries n e = none) ∧
    ((∀ s, e.status = some s → s < 400 ∨ 500 ≤ s) →
      (n < maxRetries →
        DEFAULT_RETRY_STRATEGY maxRetries n e = some (200 + 2000 * n * (n + 1))) ∧
      (maxRetries ≤ n → DEFAULT_RETRY_STRATEGY maxRetries n e = none)) := by
  constructor
  · rintro ⟨s, hs, h4, h5⟩
    have : status4xx e.status = true := by
      rw [hs]
      simp [status4xx]
      omega
    simp [DEFAULT_RETRY_STRATEGY, this]
  · intro hnot
    have hst : status4xx e.status = false := by
      cases hstatus : e.status with
      | none => simp [status4xx]
      | some s =>
        have := hnot s hstatus
        simp [status4xx]
        omega
    constructor
    · intro hlt
      simp [DEFAULT_RETRY_STRATEGY, hst, Nat.not_le.mpr hlt]
    · intro hge
      simp [DEFAULT_RETRY_STRATEGY, hst, hge]

/-- Witness for `default_retry_strategy_spec`: status 404 stops immediately
even on attempt 0 of 6, and a 503 on attempt 1 of 6 is retried after
`200 + 2000·1·2 = 4200` ms. -/
theorem default_retry_strategy_spec_witness :
    ((∃ s, (VideoUploadError.mk (some 404) none).status = some s ∧ 400 ≤ s ∧ s < 500) ∧
      DEFAULT_RETRY_STRATEGY 6 0 (VideoUploadError.mk (some 404) none) = none) ∧
    ((∀ s, (VideoUploadError.mk (some 503) none).status = some s → s < 400 ∨ 500 ≤ s) ∧
      (1 < 6 ∧
        DEFAULT_RETRY_STRATEGY 6 1 (VideoUploadError.mk (some 503) none) =
          some (200 + 2000 * 1 * (1 + 1)))) :=
  ⟨⟨⟨404, rfl, by decide, by decide⟩,
    (default_retry_strategy_spec 6 0 (VideoUploadError.mk (some 404) none)).1
      ⟨404, rfl, by decide, by decide⟩⟩,
   ⟨by intro s hs; cases hs; decide,
    ⟨by decide,
     ((default_retry_strategy_spec 6 1 (VideoUploadError.mk (some 503) none)).2
        (by intro s hs; cases hs; decide)).1 (by decide)⟩⟩⟩

/-! ## Video id threading through the chunk loop -/

/-- C6.  Response ids are never threaded into subsequent requests: because
`await` of the non-thenable `CancelableOperation` record yields the record
itself, `res.videoId` is `undefined` and `this.videoId` is overwritten with
`undefined` after every chunk.  For a 15 MiB file in 5 MiB chunks (3 chunks),
*whatever* ids the chunk responses carry: no request ever carries a received
id (all `videoId` fields are absent when construction stored none); even a
construction-supplied id `"a"` reaches only chunk 1's request and is wiped
before chunk 2; and the stored id ends `undefined`, not the last response's
id. -/
theorem upload_never_threads_response_ids (resp : Nat → String) :
    ((upload (3 * MIN_CHUNK_SIZE) MIN_CHUNK_SIZE resp none).1.map
        ChunkRequest.videoIdField = [none, none, none]) ∧
    ((upload (3 * MIN_CHUNK_SIZE) MIN_CHUNK_SIZE resp (some "a")).1.map
        ChunkRequest.videoIdField = [some "a", none, none]) ∧
    (upload (3 * MIN_CHUNK_SIZE) MIN_CHUNK_SIZE resp (some "a")).2.1 = none := by
  have h3 : chunksCount (3 * MIN_CHUNK_SIZE) MIN_CHUNK_SIZE = 3 := by
    rw [chunksCount_eq_div _ _ (by norm_num [MIN_CHUNK_SIZE])]
    norm_num [MIN_CHUNK_SIZE]
  refine ⟨?_, ?_, ?_⟩
  · show (uploadSteps _ _ _ none 0 (chunksCount (3 * MIN_CHUNK_SIZE) MIN_CHUNK_SIZE)).1.map
        ChunkRequest.videoIdField = _
    rw [h3]
    rfl
  · show (uploadSteps _ _ _ (some "a") 0 (chunksCount (3 * MIN_CHUNK_SIZE) MIN_CHUNK_SIZE)).1.map
        ChunkRequest.videoIdField = _
    rw [h3]
    rfl
  · show (uploadSteps _ _ _ (some "a") 0 (chunksCount (3 * MIN_CHUNK_SIZE) MIN_CHUNK_SIZE)).2.1 = _
    rw [h3]
    rfl
/-! ## Retrier (abstract-uploader.ts, lines 383-429) -/

/-- Outcome of one transport call (`fn(abortController)`): a parsed success
response carrying a video id, or a structured error. -/
inductive AttemptOutcome where
  | success (videoId : String)
  | failure (e : VideoUploadError)
deriving DecidableEq, Repr

/-- How the retrier's promise settles. -/
inductive RetrierResult where
  | resolved (videoId : String)
  | rejected (e : VideoUploadError)
  | outOfScript
deriving DecidableEq, Repr

/-- `sleep(duration)` (abstract-uploader.ts lines 258-262):
`new Promise((resolve, reject) => { setTimeout(() => resolve(), duration); })`.
The promise resolves only when the full timer fires; it has no reject path
and never observes the abort signal, so a pending backoff sleep cannot be
cut short.  Modelled as the duration actually waited. -/
def sleep (duration : Nat) : Nat := duration

/-- Outcome of one `createXhrPromise` call whose abort signal already fired
before the call (i.e. `cancel()` ran during an earlier backoff): the `abort`
listener (abstract-uploader.ts line 324) is registered *after* the signal
aborted, and an `AbortSignal` dispatches its abort event only once, at
`abort()` time, so the listener never runs; `xhr.send` (line 379) executes
unconditionally.  The call therefore proceeds exactly like an uncancelled
one and yields the scripted transport outcome. -/
def attemptOutcome (_alreadyAborted : Bool) (scripted : AttemptOutcome) :
    AttemptOutcome :=
  scripted

/-- The retry loop of `withRetrier` (abstract-uploader.ts lines 393-419),
with the abort-signal state explicit.  `script` lists the transport outcomes
of the successive `fn` calls; `cancelAt = some k` means `cancel()` was
invoked during the backoff following failed attempt `k`, so every later
attempt runs with an already-aborted signal.  Returns the settled result,
the number of transport calls performed (each consumes one script entry and
executes `xhr.send`), and the backoff sleeps waited, each for its full
duration. -/
def withRetrier (strategy : Nat → VideoUploadError → Option Nat)
    (cancelAt : Option Nat) :
    List AttemptOutcome → Nat → RetrierResult × Nat × List Nat
  | [], _ => (.outOfScript, 0, [])
  | o :: rest, retriesCount =>
    let aborted : Bool := match cancelAt with
      | none => false
      | some k => decide (k < retriesCount)
    match attemptOutcome aborted o with
    | .success v => (.resolved v, 1, [])
    | .failure e =>
      if e.reason = some "ABORTED" then (.rejected e, 1, [])
      else
        match strategy retriesCount e with
        | none => (.rejected e, 1, [])
        | some delay =>
          let next := withRetrier strategy cancelAt rest (retriesCount + 1)
          (next.1, next.2.1 + 1, sleep delay :: next.2.2)

/-- C5.  `cancel()` invoked during the backoff after attempt 0 (a 503
failure) neither cuts the 200 ms sleep short nor settles the operation as
`ABORTED` nor prevents further transport calls: the full 200 ms sleep is
waited, a second transport call is made, and the operation resolves
successfully. -/
theorem cancel_mid_backoff_evaluation :
    withRetrier (DEFAULT_RETRY_STRATEGY DEFAULT_RETRIES) (some 0)
      [.failure (VideoUploadError.mk (some 503) none), .success "vi1"] 0 =
      (.resolved "vi1", 2, [200]) := by
  rfl

/-! ## createXhrPromise and doRefreshToken (abstract-uploader.ts,
lines 287-381) -/

/-- How one (possibly refresh-extended) `createXhrPromise` run settles. -/
inductive XhrResult where
  | resolved
  | rejectedStatus (status : Nat)
  | refreshRejected
  | outOfScript
deriving DecidableEq, Repr

/-- Trace of a `createXhrPromise` run: the settled result, how many requests
were submitted, how many refresh calls were made, and the Authorization
header value used by each submission in order (`none` = no Authorization
header, upload-token mode). -/
structure XhrRun where
  result : XhrResult
  submissions : Nat
  refreshes : Nat
  authsUsed : List (Option String)
deriving DecidableEq, Repr

/-- `createXhrPromise` (abstract-uploader.ts lines 317-381) together with
`doRefreshToken` (lines 287-316), over a script of transport statuses (one
per submission) and a script of refresh outcomes (one per refresh call;
`some (accessToken, refreshToken)` = the refresh endpoint returned both
tokens, `none` = the refresh failed and its parsed error is rejected).

Per the source: a response with status 401 while `this.refreshToken` is
truthy triggers `doRefreshToken()`, which on success replaces the
Authorization header by `Bearer <access_token>` and stores the new refresh
token, and then `createXhrPromise` is called again on the same params —
a recursion with no depth bound.  Any other status `≥ 400` rejects with the
parsed error; a status `< 400` resolves. -/
def createXhrPromise (responses : List Nat)
    (refreshScript : List (Option (String × String)))
    (auth : Option String) (refreshToken : Option String) : XhrRun :=
  match responses with
  | [] => ⟨.outOfScript, 0, 0, []⟩
  | s :: rest =>
    if s == 401 && truthyStr refreshToken then
      match refreshScript with
      | [] => ⟨.outOfScript, 1, 1, [auth]⟩
      | some (accessTok, refreshTok) :: rrest =>
        let next := createXhrPromise rest rrest
          (some ("Bearer " ++ accessTok)) (some refreshTok)
        ⟨next.result, next.submissions + 1, next.refreshes + 1, auth :: next.authsUsed⟩
      | none :: _ => ⟨.refreshRejected, 1, 1, [auth]⟩
    else if 400 ≤ s then ⟨.rejectedStatus s, 1, 0, [auth]⟩
    else ⟨.resolved, 1, 0, [auth]⟩

/-- C4 (counterexample).  Two consecutive 401 responses followed by a 201:
the code performs *two* refresh calls and *three* submissions and finally
resolves — the second 401 is not surfaced to the caller, contradicting
"exactly one credential-refresh call … a second consecutive 401 after
refresh is surfaced". -/
theorem xhr_401_refresh_counterexample :
    createXhrPromise [401, 401, 201]
      [some ("at2", "rt2"), some ("at3", "rt3")]
      (some "Bearer at1") (some "rt1") =
      ⟨.resolved, 3, 2,
        [some "Bearer at1", some "Bearer at2", some "Bearer at3"]⟩ := by
  rfl

/-- C4 (amended).  A 401 with a truthy stored refresh token triggers exactly
one refresh call followed by one resubmission of the identical request with
the updated `Bearer` Authorization header — and the handling then *recurses*:
a second consecutive 401 triggers a further refresh/resubmission round
instead of being surfaced.  The error is surfaced only when the refresh call
itself fails, and without a stored refresh token a 401 is rejected like any
other `≥ 400` status. -/
theorem xhr_401_refresh_amended (rest : List Nat)
    (rs : List (Option (String × String))) (auth : Option String)
    (rt accessTok refreshTok : String) (hrt : rt ≠ "") :
    (createXhrPromise (401 :: rest) (some (accessTok, refreshTok) :: rs)
        auth (some rt) =
      let next := createXhrPromise rest rs
        (some ("Bearer " ++ accessTok)) (some refreshTok)
      ⟨next.result, next.submissions + 1, next.refreshes + 1,
        auth :: next.authsUsed⟩) ∧
    (createXhrPromise (401 :: rest) (none :: rs) auth (some rt) =
      ⟨.refreshRejected, 1, 1, [auth]⟩) ∧
    (createXhrPromise (401 :: rest) rs auth none =
      ⟨.rejectedStatus 401, 1, 0, [auth]⟩) := by
  refine ⟨?_, ?_, ?_⟩ <;> simp [createXhrPromise, truthyStr, hrt]

/-- Witness for `xhr_401_refresh_amended`: a single 401 then a 200, with one
successful refresh — one refresh, two submissions, second submission under
the refreshed `Bearer` header. -/
theorem xhr_401_refresh_amended_witness :
    ("rt1" : String) ≠ "" ∧
    createXhrPromise [401, 200] [some ("at2", "rt2")]
        (some "Bearer at1") (some "rt1") =
      ⟨.resolved, 2, 1, [some "Bearer at1", some "Bearer at2"]⟩ := by
  refine ⟨by decide, ?_⟩
  have h := (xhr_401_refresh_amended [200] [] (some "Bearer at1")
    "rt1" "at2" "rt2" (by decide)).1
  rw [h]
  rfl

/-! ## AbstractUploader constructor (abstract-uploader.ts, lines 131-190) -/

/-- The constructor options relevant to credential validation and retry
configuration (`CommonOptions & (WithAccessToken | WithUploadToken |
WithApiKey)`).  `none` = property absent.  Origin validation (lines 173-189)
is independent of the credential logic and not modelled. -/
structure UploaderOptions where
  apiHost : Option String := none
  retries : Option Nat := none
  uploadToken : Option String := none
  accessToken : Option String := none
  refreshToken : Option String := none
  apiKey : Option String := none
  videoId : Option String := none
  skipUploadToAPIVideo : Bool := false
deriving DecidableEq, Repr

/-- The Authorization header the constructor installs: `Bearer <accessToken>`
(line 150) or `Basic btoa(<apiKey> + ":")` (lines 157-159).  The base64
encoding is injective bookkeeping, so the header is modelled by its tag and
raw credential. -/
inductive AuthHeader where
  | bearer (accessToken : String)
  | basic (apiKey : String)
deriving DecidableEq, Repr

/-- The uploader fields the constructor initializes that later logic reads. -/
structure UploaderState where
  uploadEndpoint : String
  videoId : Option String
  refreshToken : Option String
  authorization : Option AuthHeader
  retries : Nat
  skipUploadToAPIVideo : Bool
deriving DecidableEq, Repr

/-- `this.retries = options.retries || DEFAULT_RETRIES;` (line 169):
`0` is falsy in JavaScript, so both an absent and a zero `retries` option
yield the default. -/
def resolveRetries (retries : Option Nat) : Nat :=
  match retries with
  | none => DEFAULT_RETRIES
  | some n => if n = 0 then DEFAULT_RETRIES else n

/-- The `AbstractUploader` constructor (lines 131-190).  The credential
branches are tried in source order — `uploadToken` first (`hasOwnProperty`,
line 137), then `accessToken` (line 143), then `apiKey` (line 151); only the
first present shape is used.  `accessToken` and `apiKey` each require a
truthy `videoId` (lines 145, 153).  With no shape present, construction
throws unless `skipUploadToAPIVideo` is set (lines 160-167), in which case
the endpoint is left empty.  Only the uploadToken branch stores a supplied
`videoId` on the instance (lines 139-141). -/
def constructUploader (o : UploaderOptions) : Except String UploaderState :=
  let apiHost := if truthyStr o.apiHost then o.apiHost.getD "" else DEFAULT_API_HOST
  let skip := o.skipUploadToAPIVideo
  if o.uploadToken.isSome then
    .ok { uploadEndpoint :=
            "https://" ++ apiHost ++ "/upload?token=" ++ o.uploadToken.getD ""
          videoId := if truthyStr o.videoId then o.videoId else none
          refreshToken := none
          authorization := none
          retries := resolveRetries o.retries
          skipUploadToAPIVideo := skip }
  else if o.accessToken.isSome then
    if !truthyStr o.videoId then .error "videoId is missing"
    else .ok { uploadEndpoint :=
                 "https://" ++ apiHost ++ "/videos/" ++ o.videoId.getD "" ++ "/source"
               videoId := none
               refreshToken := o.refreshToken
               authorization := some (.bearer (o.accessToken.getD ""))
               retries := resolveRetries o.retries
               skipUploadToAPIVideo := skip }
  else if o.apiKey.isSome then
    if !truthyStr o.videoId then .error "videoId is missing"
    else .ok { uploadEndpoint :=
                 "https://" ++ apiHost ++ "/videos/" ++ o.videoId.getD "" ++ "/source"
               videoId := none
               refreshToken := none
               authorization := some (.basic (o.apiKey.getD ""))
               retries := resolveRetries o.retries
               skipUploadToAPIVideo := skip }
  else if skip != true then
    .error "You must provide either an accessToken, an uploadToken or an API key"
  else
    .ok { uploadEndpoint := ""
          videoId := none
          refreshToken := none
          authorization := none
          retries := resolveRetries o.retries
          skipUploadToAPIVideo := skip }

/-- Whether construction succeeded (no `ConfigurationError` thrown). -/
def exceptOk {ε α : Type} : Except ε α → Bool
  | .ok _ => true
  | .error _ => false

/-- Options supplying two credential shapes at once. -/
def bothShapesOptions : UploaderOptions :=
  { uploadToken := some "tok", accessToken := some "acc" }

/-- C7 (counterexample).  Supplying both an `uploadToken` and an
`accessToken` (with no `videoId`) does *not* fail construction: the
`uploadToken` branch is checked first and wins, so "more than one shape at
once" succeeds, contradicting "every other combination … fails construction
with a ConfigurationError". -/
theorem construct_two_shapes_counterexample :
    exceptOk (constructUploader bothShapesOptions) = true ∧
    bothShapesOptions.uploadToken.isSome = true ∧
    bothShapesOptions.accessToken.isSome = true ∧
    bothShapesOptions.videoId = none := by
  decide

/-- C7 (amended).  Construction succeeds exactly when the first present
credential shape — tried in the order `uploadToken`, `accessToken`,
`apiKey` — is usable: an `uploadToken` always succeeds (supplying further
shapes alongside it changes nothing), `accessToken` or `apiKey` additionally
require a truthy `videoId` (and fail without one even when the bypass flag
is set), and with no shape at all construction fails unless the
`skipUploadToAPIVideo` bypass flag is set. -/
theorem construct_credential_validation (o : UploaderOptions) :
    exceptOk (constructUploader o) = true ↔
      (o.uploadToken.isSome = true ∨
       (o.uploadToken = none ∧ o.accessToken.isSome = true ∧
         truthyStr o.videoId = true) ∨
       (o.uploadToken = none ∧ o.accessToken = none ∧ o.apiKey.isSome = true ∧
         truthyStr o.videoId = true) ∨
       (o.uploadToken = none ∧ o.accessToken = none ∧ o.apiKey = none ∧
         o.skipUploadToAPIVideo = true)) := by
  rcases o with ⟨ah, r, ut, atk, rt, ak, vid, skip⟩
  cases ut with
  | some t => simp [constructUploader, exceptOk]
  | none =>
    cases atk with
    | some a => cases htv : truthyStr vid <;> simp [constructUploader, exceptOk, htv]
    | none =>
      cases ak with
      | some k => cases htv : truthyStr vid <;> simp [constructUploader, exceptOk, htv]
      | none => cases skip <;> simp [constructUploader, exceptOk]

/-! ## Chunk-size validation (video-uploader.ts, lines 35-39) -/

/-- `if (options.chunkSize && (options.chunkSize < MIN_CHUNK_SIZE ||
options.chunkSize > MAX_CHUNK_SIZE)) { throw … }`
`this.chunkSize = options.chunkSize || DEFAULT_CHUNK_SIZE;`
(video-uploader.ts lines 35-39): the bounds check is guarded by the
truthiness of `options.chunkSize`, so a falsy `0` skips the check and falls
through to the default. -/
def resolveChunkSize (chunkSize : Option Int) : Except String Int :=
  if truthyInt chunkSize
      && (decide (chunkSize.getD 0 < (MIN_CHUNK_SIZE : Int))
          || decide (chunkSize.getD 0 > (MAX_CHUNK_SIZE : Int))) then
    .error "Invalid chunk size."
  else
    .ok (if truthyInt chunkSize then chunkSize.getD 0 else (DEFAULT_CHUNK_SIZE : Int))

/-- C8 (counterexample).  A caller-supplied chunk size of `0` lies outside
the inclusive bounds `[5 MiB, 128 MiB]`, yet construction does *not* fail:
`0` is falsy, the bounds check is skipped, and the default 50 MiB chunk size
is used. -/
theorem chunk_size_zero_counterexample :
    resolveChunkSize (some 0) = .ok (DEFAULT_CHUNK_SIZE : Int) ∧
    (0 : Int) < (MIN_CHUNK_SIZE : Int) :=
  ⟨rfl, by decide⟩

/-- C8 (amended).  Every caller-supplied *nonzero* chunk size outside
`[5 MiB, 128 MiB]` fails construction; a nonzero chunk size within the
bounds — both endpoints included — is accepted as given; an absent chunk
size yields the 50 MiB default; and a supplied chunk size of `0` is treated
as absent (default applies) rather than rejected. -/
theorem chunk_size_validation (n : Int) (hn : n ≠ 0) :
    ((n < (MIN_CHUNK_SIZE : Int) ∨ (MAX_CHUNK_SIZE : Int) < n) →
      resolveChunkSize (some n) = .error "Invalid chunk size.") ∧
    ((MIN_CHUNK_SIZE : Int) ≤ n → n ≤ (MAX_CHUNK_SIZE : Int) →
      resolveChunkSize (some n) = .ok n) ∧
    resolveChunkSize none = .ok (DEFAULT_CHUNK_SIZE : Int) ∧
    resolveChunkSize (some 0) = .ok (DEFAULT_CHUNK_SIZE : Int) := by
  refine ⟨?_, ?_, rfl, rfl⟩
  · intro h
    rcases h with h | h <;> simp [resolveChunkSize, truthyInt, hn, h]
  · intro h1 h2
    have hc1 : ¬ (n < (MIN_CHUNK_SIZE : Int)) := not_lt.mpr h1
    have hc2 : ¬ ((MAX_CHUNK_SIZE : Int) < n) := not_lt.mpr h2
    simp [resolveChunkSize, truthyInt, hn, hc1, hc2]

/-- Witness for `chunk_size_validation`: the lower boundary 5 MiB itself is
accepted unchanged. -/
theorem chunk_size_validation_witness :
    ((MIN_CHUNK_SIZE : Int) ≠ 0) ∧
    resolveChunkSize (some (MIN_CHUNK_SIZE : Int)) = .ok (MIN_CHUNK_SIZE : Int) :=
  ⟨by decide,
   (chunk_size_validation (MIN_CHUNK_SIZE : Int) (by decide)).2.1
     (by decide) (by decide)⟩

/-- C10.  A `retries: 0` option is falsy, so construction succeeds and the
effective maximum attempt count is the default 6, not 0: the default
strategy built from it still retries attempt 0 of a 503 (delay 200 ms) and
stops only at attempt index 6. -/
theorem retries_zero_uses_default :
    resolveRetries (some 0) = DEFAULT_RETRIES ∧
    resolveRetries none = DEFAULT_RETRIES ∧
    (constructUploader { uploadToken := some "tok", retries := some 0 }).toOption.map
        UploaderState.retries = some 6 ∧
    DEFAULT_RETRY_STRATEGY (resolveRetries (some 0)) 0
        (VideoUploadError.mk (some 503) none) = some 200 ∧
    DEFAULT_RETRY_STRATEGY (resolveRetries (some 0)) 6
        (VideoUploadError.mk (some 503) none) = none := by
  decide

/-! ## Declared public API shape (video-uploader.ts line 48,
abstract-uploader.ts lines 91-94 and 264-270) -/

/-- The TypeScript types that appear on the upload API surface. -/
inductive TsType where
  | videoUploadResponse
  | promise (t : TsType)
  | cancelableOperation (t : TsType)
deriving DecidableEq, Repr

/-- `public async upload(): Promise<VideoUploadResponse>`
(video-uploader.ts line 48): the declared type of the value the public
`upload()` operation returns. -/
def uploadReturnType : TsType := .promise .videoUploadResponse

/-- `protected xhrWithRetrier(params: HXRRequestParams):
CancelableOperation<VideoUploadResponse>` (abstract-uploader.ts lines
264-266): the declared type of the internal per-chunk retrier handle. -/
def xhrWithRetrierReturnType : TsType := .cancelableOperation .videoUploadResponse

/-- A value of a given declared type exposes a `cancel()` member iff it is a
`CancelableOperation` (`interface CancelableOperation<T> { cancel: () => void;
result: Promise<T>; }`, abstract-uploader.ts lines 91-94); a bare `Promise`
exposes none. -/
def exposesCancel : TsType → Bool
  | .cancelableOperation _ => true
  | _ => false

/-- C9 (counterexample).  The value returned by the public `upload()` is
declared a bare `Promise<VideoUploadResponse>`, which exposes no `cancel()`
member — it is not a cancelable handle. -/
theorem upload_return_not_cancelable :
    exposesCancel uploadReturnType = false ∧
    uploadReturnType = .promise .videoUploadResponse := by
  decide

/-- C9 (amended).  The cancelable handle — `cancel()` plus a result
promise — is the return type of the *internal* per-chunk
`xhrWithRetrier`/`withRetrier`, not of the public `upload()`, which is
declared to return a bare promise without cancel capability. -/
theorem cancel_handle_is_internal :
    exposesCancel xhrWithRetrierReturnType = true ∧
    exposesCancel uploadReturnType = false := by
  decide

end Uploader
